import Mathlib

/-!
Verification development for the Genie chat application core
(src/genie_client.py, src/app.py, src/conversation_store.py).

The Python client is embedded shallowly:

* Machine time is logical: the clock starts at 0 when a public operation
  begins and advances exactly by the documented sleep amounts (poll
  interval, follow-up settle interval).  Remote calls are oracles indexed
  by the current logical time; an oracle result is the outcome of the
  call after the Retry Executor has run (ok value, or the re-raised
  error).  Backoff sleeps inside the Retry Executor are modelled in the
  standalone retry model below, where the retry claims live.
* Python exceptions are the error side of an Except monad; a Python
  try/except block is pyTryE.
* Dynamic attribute access (getattr / hasattr) is modelled with Option
  fields: none means the attribute is absent (or, where the source uses
  a getattr default or a falsy check, indistinguishable from None).
* Python truthiness of strings: None and the empty string are falsy.
-/

deriving instance DecidableEq for Except

/-- Uppercase a string character-wise (kernel-reducible version of
str.upper for the ASCII statuses the client handles). -/
def pyUpper (s : String) : String := ⟨s.data.map Char.toUpper⟩

/-- Lowercase a string character-wise (str.lower). -/
def pyLower (s : String) : String := ⟨s.data.map Char.toLower⟩

/-- Drop leading and trailing whitespace from a character list. -/
def trimChars (l : List Char) : List Char :=
  ((l.dropWhile Char.isWhitespace).reverse.dropWhile Char.isWhitespace).reverse

/-- Python str.strip(). -/
def pyStrip (s : String) : String := ⟨trimChars s.data⟩

/-- Python "\n".join(xs). -/
def joinNL : List String → String
  | [] => ""
  | [x] => x
  | x :: y :: rest => x ++ "\n" ++ joinNL (y :: rest)

/-- Does the first list lead the second (needle starts the hay)? -/
def leadsWith : List Char → List Char → Bool
  | [], _ => true
  | _ :: _, [] => false
  | a :: as, b :: bs => a == b && leadsWith as bs

/-- Does the needle occur somewhere inside the hay? -/
def subOf (needle hay : List Char) : Bool :=
  match hay with
  | [] => needle.isEmpty
  | _ :: t => leadsWith needle hay || subOf needle t

/-- Python substring containment: needle in hay. -/
def strHasSub (hay needle : String) : Bool := subOf needle.data hay.data

/-- Python truthiness of an optional string (None and "" are falsy). -/
def pyTruthy (o : Option String) : Bool :=
  match o with
  | some s => !(s == "")
  | none => false

/-- Python a or b for two optional strings: keep a when it is truthy,
else b.  Used for getattr(m, x, None) or getattr(m, y, None). -/
def pyOrStr (a b : Option String) : Option String :=
  if pyTruthy a then a else b

/-! ## Data model (src/genie_client.py)

Backend message shapes as the client probes them dynamically. -/

/-- An attachment.query object: the outer presence means the query
attribute exists and is truthy; the inner field is its .query attribute
(none = no such attribute; some v = attribute with value v, where v may
be Python None). -/
structure QueryObj where
  query : Option (Option String)
deriving DecidableEq

/-- An attachment.text object together with its .content attribute; the
presence of a TextObj means hasattr(attachment, text) and
hasattr(attachment.text, content) both hold.  content = none is a
content attribute whose value is Python None (it poisons str.join). -/
structure TextObj where
  content : Option String
deriving DecidableEq

/-- One element of message.attachments. -/
structure Attachment where
  query : Option QueryObj
  text : Option TextObj
deriving DecidableEq

/-- The value of message.attachments: a list, or a truthy non-iterable
value (iterating it raises TypeError, which _extract_result catches). -/
inductive AttachmentsVal where
  | items : List Attachment → AttachmentsVal
  | notIterable : AttachmentsVal
deriving DecidableEq

/-- A Genie message as the client reads it.  pyRepr is str(message),
used by the degraded extraction path.  Optional fields are attributes
that may be absent (getattr with a default). -/
structure Message where
  pyRepr : String
  status : Option String
  error : Option String
  content : Option String
  message_id : Option String
  id : Option String
  created_timestamp : Option Nat
  last_updated_timestamp : Option Nat
  attachments : Option AttachmentsVal
deriving DecidableEq

/-- Structured result of a Genie query (dataclass GenieResult). -/
structure GenieResult where
  success : Bool
  raw_response : String
  query_result : Option (List (List (Option String)))
  sql_query : Option String
  error : Option String
  elapsed_seconds : Option Nat
  conversation_id : Option String
  message_id : Option String
deriving DecidableEq

/-! ## Transient Failure Classifier and Retry Executor -/

/-- Substring indicators of retryable errors (GenieClient.RETRYABLE_ERRORS). -/
def RETRYABLE_ERRORS : List String :=
  ["connection", "timeout", "rate limit", "429",
   "500", "502", "503", "504", "temporarily unavailable"]

/-- GenieClient._is_retryable_error: match any indicator against the
lowercased error description. -/
def isRetryableError (e : String) : Bool :=
  RETRYABLE_ERRORS.any (fun indicator => strHasSub (pyLower e) indicator)

/-- Observable trace of one _retry_with_backoff execution: the final
outcome (ok value or re-raised error), how many attempts ran, and the
sleeps performed between attempts. -/
structure RetryTrace (α : Type) where
  result : Except String α
  attemptsMade : Nat
  sleeps : List ℚ

/-- Backoff delay before retrying attempt number attempt:
RETRY_BASE_DELAY * 2 ** attempt + random.uniform(0, 1); the jitter draw
is an oracle parameter. -/
def backoffDelay (base : ℚ) (jitter : Nat → ℚ) (attempt : Nat) : ℚ :=
  base * 2 ^ attempt + jitter attempt

/-- Loop body of _retry_with_backoff: attempt counts from 0, remaining
is how many loop iterations are left.  The remaining = 0 entry case is
the degenerate max_retries = 0 run, where Python would raise the None
placeholder. -/
def retryGo {α : Type} (base : ℚ) (jitter : Nat → ℚ)
    (f : Nat → Except String α) : Nat → Nat → RetryTrace α
  | _, 0 => ⟨.error "TypeError: exceptions must derive from BaseException", 0, []⟩
  | attempt, remaining + 1 =>
    match f attempt with
    | .ok a => ⟨.ok a, 1, []⟩
    | .error e =>
      if isRetryableError e then
        if remaining = 0 then ⟨.error e, 1, []⟩
        else
          let rest := retryGo base jitter f (attempt + 1) remaining
          ⟨rest.result, rest.attemptsMade + 1,
           backoffDelay base jitter attempt :: rest.sleeps⟩
      else ⟨.error e, 1, []⟩

/-- GenieClient._retry_with_backoff over an attempt oracle f. -/
def retryWithBackoff {α : Type} (maxRetries : Nat) (base : ℚ) (jitter : Nat → ℚ)
    (f : Nat → Except String α) : RetryTrace α :=
  retryGo base jitter f 0 maxRetries

/-! ## Terminal State Evaluator -/

def TERMINAL_SUCCESS_STATES : List String := ["COMPLETED"]

def TERMINAL_FAILURE_STATES : List String := ["FAILED", "CANCELLED", "CANCELED", "ABORTED"]

/-- GenieClient._get_status_string: uppercase the status attribute
(enum value or plain string collapse to the same string here); a message
without a status attribute reads as UNKNOWN. -/
def getStatusString (m : Message) : String :=
  match m.status with
  | some s => pyUpper s
  | none => "UNKNOWN"

/-- GenieClient._is_terminal_success: substring match against the
success states. -/
def isTerminalSuccess (status : String) : Bool :=
  TERMINAL_SUCCESS_STATES.any (fun s => strHasSub status s)

/-- GenieClient._is_terminal_failure: substring match against the
failure states. -/
def isTerminalFailure (status : String) : Bool :=
  TERMINAL_FAILURE_STATES.any (fun s => strHasSub status s)

/-- Three-way classification in the order the Polling Engine tests it
(success first, then failure, else non-terminal). -/
inductive StatusClass where
  | success
  | failure
  | pending
deriving DecidableEq

def classifyStatus (status : String) : StatusClass :=
  if isTerminalSuccess status then .success
  else if isTerminalFailure status then .failure
  else .pending

/-! ## Result Extractor (GenieClient._extract_result) -/

/-- The attachment loop of _extract_result: collect text contents of
query attachments and of commentary attachments (each may be Python
None), and keep the last seen attachment.query.query value. -/
def extractFold (atts : List Attachment) :
    List (Option String) × List (Option String) × Option String :=
  atts.foldl
    (fun acc a =>
      let qts := acc.1
      let ots := acc.2.1
      let sql := acc.2.2
      let hasQuery := a.query.isSome
      let sql' :=
        match a.query with
        | some qo => match qo.query with
          | some v => v
          | none => sql
        | none => sql
      match a.text with
      | some tObj =>
        if hasQuery then (qts ++ [tObj.content], ots, sql')
        else (qts, ots ++ [tObj.content], sql')
      | none => (qts, ots, sql'))
    ([], [], none)

/-- The body of _extract_result up to the point where it can raise:
iterating a non-iterable attachments value raises TypeError, and
joining a text list containing Python None raises TypeError. -/
def extractCore (m : Message) : Except String (String × Option String) := do
  let parts ←
    match m.attachments with
    | none => pure (([], [], none) :
        List (Option String) × List (Option String) × Option String)
    | some (.items atts) => pure (extractFold atts)
    | some .notIterable => throw "TypeError: object is not iterable"
  let texts := parts.1 ++ parts.2.1
  if texts.all Option.isSome then
    pure (joinNL (texts.map (fun t => t.getD "")), parts.2.2)
  else
    throw "TypeError: sequence item: expected str instance, NoneType found"

/-- GenieClient._extract_result: answer built from query-attachment
texts then commentary texts, stripped; on any extraction error, degrade
to str(message) with a recorded partial-extraction error and still
success = True. -/
def extractResult (m : Message) : GenieResult :=
  match extractCore m with
  | .ok pair => ⟨true, pyStrip pair.1, none, pair.2, none, none, none, none⟩
  | .error e =>
    ⟨true, m.pyRepr, none, none, some ("Partial extraction: " ++ e), none, none, none⟩

/-! ## Polling Engine and Follow-up Reconciler

Client configuration constants (GenieClient constructor defaults and
class constants).  Times are in logical seconds. -/

structure ClientConfig where
  timeout_seconds : Nat
  initial_poll_interval : Nat
  max_poll_interval : Nat
  follow_up_settle_seconds : Nat
  follow_up_initial_stable_checks : Nat
  follow_up_chain_stable_checks : Nat
  max_follow_up_cycles : Nat

/-- Defaults: 600s timeout, 1s initial poll interval, 60s cap, 3s
settle, 3 initial stable checks, 6 chain stable checks, 20 cycles. -/
def defaultConfig : ClientConfig := ⟨600, 1, 60, 3, 3, 6, 20⟩

/-- GenieClient._get_next_poll_interval: double, capped. -/
def getNextPollInterval (c : ClientConfig) (cur : Nat) : Nat :=
  min (cur * 2) c.max_poll_interval

/-- Remote-call oracles for one polling run.  Each oracle is indexed by
the logical time of the call and yields the outcome after the Retry
Executor (ok, or the re-raised error).  getMsg additionally takes the
message id being fetched; listMsgs yields the conversation message list
with the response-shape normalization already applied (messages field
or bare list; a None list reads as empty, matching the falsy check). -/
structure PollEnv where
  getMsg : Nat → Option String → Except String Message
  listMsgs : Nat → Except String (List Message)

/-- Timestamp key used to pick the latest message:
getattr(m, last_updated_timestamp, 0) or 0. -/
def tsOf (m : Message) : Nat := (m.last_updated_timestamp).getD 0

/-- Python max(items, key=...) over a nonempty list: keeps the first
maximal element (replace only on strictly greater key). -/
def latestMessage (x : Message) (rest : List Message) : Message :=
  rest.foldl (fun acc m => if tsOf acc < tsOf m then m else acc) x

/-- Message id probing: getattr(m, message_id, None) or getattr(m, id, None). -/
def messageIdOf (m : Message) : Option String := pyOrStr m.message_id m.id

/-- Failed PollResult built on deadline exhaustion. -/
def timeoutResult (t : Nat) (cid mid : Option String) : GenieResult :=
  ⟨false, "", none, none,
   some ("Query timed out after " ++ toString t ++ " seconds."), some t, cid, mid⟩

/-- Failed PollResult built from a terminal-failure message:
getattr(message, error, f-string Query status). -/
def failureResult (m : Message) (status : String) (t : Nat) (cid mid : Option String) :
    GenieResult :=
  ⟨false, "", none, none, some (m.error.getD ("Query " ++ status)), some t, cid, mid⟩

/-- Successful PollResult for a terminal-success message: extract, then
fill elapsed time and ids. -/
def successResult (m : Message) (t : Nat) (cid mid : Option String) : GenieResult :=
  let r := extractResult m
  { r with elapsed_seconds := some t, conversation_id := cid, message_id := mid }

/-- GenieClient._poll_for_result with _check_follow_ups=False, as the
reconciler invokes it on a chained message.  State: remaining loop fuel
(the deadline bounds real iterations; fuel only has to dominate it),
current time, current poll interval.  Returns the result together with
the logical time at return.  A failed get_message (after retries) is a
transient poll error: sleep one interval and continue. -/
def pollNFAux (c : ClientConfig) (env : PollEnv) (cid mid : Option String) :
    Nat → Nat → Nat → GenieResult × Nat
  | 0, t, _ => (timeoutResult t cid mid, t)
  | fuel + 1, t, itv =>
    if t < c.timeout_seconds then
      match env.getMsg t mid with
      | .error _ => pollNFAux c env cid mid fuel (t + itv) (getNextPollInterval c itv)
      | .ok m =>
        let status := getStatusString m
        if isTerminalSuccess status then (successResult m t cid mid, t)
        else if isTerminalFailure status then (failureResult m status t cid mid, t)
        else pollNFAux c env cid mid fuel (t + itv) (getNextPollInterval c itv)
    else (timeoutResult t cid mid, t)

/-- Entry to the inner poll: fresh interval, fuel dominating the
deadline, started at the current time t0. -/
def pollNoFollowUps (c : ClientConfig) (env : PollEnv) (cid mid : Option String)
    (t0 : Nat) : GenieResult × Nat :=
  pollNFAux c env cid mid (c.timeout_seconds + 1) t0 c.initial_poll_interval

/-- Post-loop block of _wait_for_final_message (lines 300-320): if a
follow-up was adopted (last_known differs from the original id),
re-fetch that final message and return its extracted result with the
current elapsed time and ids; on a fetch error, or when no follow-up
was adopted, return none (original stands). -/
def reconcileFinish (_c : ClientConfig) (env : PollEnv) (cid originalId lastKnown : Option String)
    (t : Nat) : Option GenieResult :=
  if lastKnown ≠ originalId then
    match env.getMsg t lastKnown with
    | .ok finalMsg =>
      let r := extractResult finalMsg
      some { r with elapsed_seconds := some t, conversation_id := cid, message_id := lastKnown }
    | .error _ => none
  else none

/-- Cycle loop of GenieClient._wait_for_final_message.  Arguments after
the fixed ones: remaining cycles (MAX_FOLLOW_UP_CYCLES at entry; 0 is
loop exhaustion, which falls through to the post-loop block), current
time, last known message id, consecutive-stable counter. -/
def reconcileAux (c : ClientConfig) (env : PollEnv) (cid originalId : Option String) :
    Nat → Nat → Option String → Nat → Option GenieResult
  | 0, t, lastKnown, _ => reconcileFinish c env cid originalId lastKnown t
  | fuel + 1, t, lastKnown, stable =>
    if c.timeout_seconds ≤ t then reconcileFinish c env cid originalId lastKnown t
    else
      let t' := t + c.follow_up_settle_seconds
      match env.listMsgs t' with
      | .error _ => reconcileFinish c env cid originalId lastKnown t'
      | .ok [] => reconcileFinish c env cid originalId lastKnown t'
      | .ok (first :: rest) =>
        let latest := latestMessage first rest
        let latestId := messageIdOf latest
        if latestId = lastKnown then
          let stable' := stable + 1
          let required :=
            if lastKnown = originalId then c.follow_up_initial_stable_checks
            else c.follow_up_chain_stable_checks
          if required ≤ stable' then none
          else reconcileAux c env cid originalId fuel t' lastKnown stable'
        else
          let status := getStatusString latest
          if isTerminalFailure status then none
          else if isTerminalSuccess status then
            reconcileAux c env cid originalId fuel t' latestId 0
          else
            let polled := pollNoFollowUps c env cid latestId t'
            if polled.1.success then reconcileAux c env cid originalId fuel polled.2 latestId 0
            else none

/-- GenieClient._wait_for_final_message: entered when the watched
message reached terminal success at logical time t. -/
def waitForFinalMessage (c : ClientConfig) (env : PollEnv) (cid lastKnownId : Option String)
    (t : Nat) : Option GenieResult :=
  reconcileAux c env cid lastKnownId c.max_follow_up_cycles t lastKnownId 0

/-- GenieClient._poll_for_result with _check_follow_ups=True: on
terminal success, delegate to the reconciler first and return its
superseding result when it yields one. -/
def pollAux (c : ClientConfig) (env : PollEnv) (cid mid : Option String) :
    Nat → Nat → Nat → GenieResult
  | 0, t, _ => timeoutResult t cid mid
  | fuel + 1, t, itv =>
    if t < c.timeout_seconds then
      match env.getMsg t mid with
      | .error _ => pollAux c env cid mid fuel (t + itv) (getNextPollInterval c itv)
      | .ok m =>
        let status := getStatusString m
        if isTerminalSuccess status then
          match waitForFinalMessage c env cid mid t with
          | some final => final
          | none => successResult m t cid mid
        else if isTerminalFailure status then failureResult m status t cid mid
        else pollAux c env cid mid fuel (t + itv) (getNextPollInterval c itv)
    else timeoutResult t cid mid

/-- Public entry of the Polling Engine for the initial message of a
question (follow-up checks on), started at time 0. -/
def pollForResult (c : ClientConfig) (env : PollEnv) (cid mid : Option String) : GenieResult :=
  pollAux c env cid mid (c.timeout_seconds + 1) 0 c.initial_poll_interval

/-! ## Public operations (GenieClient methods and their collaborators)

Each public operation is translated as an Except-valued computation so
that a Python exception escaping it would show up as an error value;
the source try/except blocks become pyTryE. -/

/-- Python try/except translation: run the body; on a raised error,
produce the handler value instead. -/
def pyTryE {α : Type} (body : Except String α) (handler : String → α) : Except String α :=
  match body with
  | .ok a => .ok a
  | .error e => .ok (handler e)

/-- Response of genie.start_conversation: attribute values as the code
reads them (a None value flows on). -/
structure StartResp where
  conversation_id : Option String
  message_id : Option String

/-- Response of genie.create_message. -/
structure CreateResp where
  message_id : Option String

/-- One conversation from genie.list_conversations.  id = none means
the id attribute is absent, so reading it raises AttributeError. -/
structure Conversation where
  conversation_id : Option String
  id : Option String
  title : Option String
  created_timestamp : Option Nat
  last_updated_timestamp : Option Nat

/-- Column of a statement manifest schema. -/
structure ResultColumn where
  name : String
  type_name : Option String
deriving DecidableEq

structure ResultSchema where
  columns : Option (List ResultColumn)
deriving DecidableEq

structure ResultManifest where
  schema : Option ResultSchema
  total_row_count : Option Nat
deriving DecidableEq

structure ResultData where
  data_array : Option (List (List (Option String)))
deriving DecidableEq

structure StatementResponse where
  manifest : Option ResultManifest
  result : Option ResultData
  statement_id : Option String
deriving DecidableEq

/-- Response of genie.get_message_query_result. -/
structure QueryResultResp where
  statement_response : Option StatementResponse
deriving DecidableEq

structure StatementStatus where
  state : Option String
  error : Option String
deriving DecidableEq

/-- Response of statement_execution.get_statement. -/
structure StatementResult where
  status : Option StatementStatus
  manifest : Option ResultManifest
  result : Option ResultData
deriving DecidableEq

/-- Collaborator oracles for one public-operation call, each already
wrapped by the Retry Executor (error = re-raised after retries or
non-retryable). -/
structure ClientEnv where
  startConv : Except String StartResp
  createMsg : String → Except String CreateResp
  poll : PollEnv
  listConvs : Except String (List Conversation)
  queryResult : Except String QueryResultResp
  getStatement : String → Except String StatementResult
  feedback : Except String Unit
  deleteConv : Except String Unit
  listMsgsOnce : Except String (List Message)

/-- GenieClient.ask body (the try block): start a conversation, then
poll its initial message with follow-up checks on. -/
def askBody (c : ClientConfig) (env : ClientEnv) : Except String GenieResult := do
  let conv ← env.startConv
  pure (pollForResult c env.poll conv.conversation_id conv.message_id)

/-- GenieClient.ask: any raised error degrades to a failed GenieResult
carrying the error text. -/
def ask (c : ClientConfig) (env : ClientEnv) : Except String GenieResult :=
  pyTryE (askBody c env) (fun e => ⟨false, "", none, none, some e, some 0, none, none⟩)

/-- GenieClient.continue_conversation body. -/
def continueConversationBody (c : ClientConfig) (env : ClientEnv) (conversationId : String) :
    Except String GenieResult := do
  let resp ← env.createMsg conversationId
  pure (pollForResult c env.poll (some conversationId) resp.message_id)

/-- GenieClient.continue_conversation: the degraded result keeps the
conversation id. -/
def continueConversation (c : ClientConfig) (env : ClientEnv) (conversationId : String) :
    Except String GenieResult :=
  pyTryE (continueConversationBody c env conversationId)
    (fun e => ⟨false, "", none, none, some e, some 0, some conversationId, none⟩)

/-- Summary dict built per conversation by list_conversations. -/
structure ConversationSummary where
  id : String
  title : String
  created_at : Option Nat
  updated_at : Option Nat

/-- Per-conversation dict of list_conversations:
getattr(conv, conversation_id, None) or conv.id for the id (reading a
missing id attribute raises), getattr defaults for the rest. -/
def convSummaryOf (conv : Conversation) : Except String ConversationSummary := do
  let idVal ←
    if pyTruthy conv.conversation_id then pure (conv.conversation_id.getD "")
    else
      match conv.id with
      | some i => pure i
      | none => throw "AttributeError: conversation object has no attribute id"
  pure ⟨idVal, conv.title.getD "Untitled", conv.created_timestamp, conv.last_updated_timestamp⟩

/-- GenieClient.list_conversations body. -/
def listConversationsBody (env : ClientEnv) : Except String (List ConversationSummary) := do
  let items ← env.listConvs
  items.mapM convSummaryOf

/-- GenieClient.list_conversations: any raised error degrades to the
empty list. -/
def listConversations (env : ClientEnv) : Except String (List ConversationSummary) :=
  pyTryE (listConversationsBody env) (fun _ => [])

/-- Column dict of get_query_result: name plus type string (enum value
or the STRING default). -/
structure ColumnOut where
  name : String
  colType : String
deriving DecidableEq

/-- Return value of get_query_result: by construction exactly one of
the two dict shapes of the contract. -/
inductive QueryResultDict where
  | ok_shape : List ColumnOut → List (List (Option String)) → Option Nat → QueryResultDict
  | error_shape : String → QueryResultDict
deriving DecidableEq

def columnsOf (cols : List ResultColumn) : List ColumnOut :=
  cols.map (fun col => ⟨col.name, col.type_name.getD "STRING"⟩)

/-- GenieClient._fetch_statement_result body (the try block). -/
def fetchStatementResultBody (env : ClientEnv) (sid : String) (cols : List ColumnOut) :
    Except String QueryResultDict := do
  let res ← env.getStatement sid
  let stateStr :=
    match res.status with
    | some st => st.state.getD ""
    | none => ""
  if stateStr != "" && stateStr != "SUCCEEDED" then
    pure (.error_shape ("Statement not succeeded (state=" ++ stateStr ++ ")"))
  else
    let cols' :=
      match res.manifest with
      | some man =>
        match man.schema with
        | some sch =>
          match sch.columns with
          | some cs => if cs.isEmpty then cols else columnsOf cs
          | none => cols
        | none => cols
      | none => cols
    let rows :=
      match res.result with
      | some rd => rd.data_array.getD []
      | none => []
    let totalRows :=
      match res.manifest with
      | some man => man.total_row_count
      | none => some rows.length
    pure (.ok_shape cols' rows totalRows)

/-- GenieClient._fetch_statement_result with its own try/except. -/
def fetchStatementResult (env : ClientEnv) (sid : String) (cols : List ColumnOut) :
    Except String QueryResultDict :=
  pyTryE (fetchStatementResultBody env sid cols)
    (fun e => .error_shape ("Statement fetch failed: " ++ e))

/-- GenieClient.get_query_result body (the try block). -/
def getQueryResultBody (env : ClientEnv) : Except String QueryResultDict := do
  let resp ← env.queryResult
  match resp.statement_response with
  | none => pure (.error_shape "statement_response is None — query may still be executing")
  | some stmt =>
    match stmt.manifest with
    | none => pure (.error_shape "manifest is None — no schema returned")
    | some man =>
      let rawCols ←
        match man.schema with
        | some sch => pure (sch.columns.getD [])
        | none => throw "AttributeError: NoneType object has no attribute columns"
      let cols := columnsOf rawCols
      match (match stmt.result with | some rd => rd.data_array | none => none) with
      | some rows => pure (.ok_shape cols rows man.total_row_count)
      | none =>
        if pyTruthy stmt.statement_id then
          fetchStatementResult env (stmt.statement_id.getD "") cols
        else pure (.ok_shape cols [] (some 0))

/-- GenieClient.get_query_result: always a dict; a raised error becomes
the error shape. -/
def getQueryResult (env : ClientEnv) : Except String QueryResultDict :=
  pyTryE (getQueryResultBody env) (fun e => .error_shape ("Exception: " ++ e))

/-- Feedback rating enum; "positive" maps to positive, anything else to
negative. -/
inductive FeedbackRating where
  | positive
  | negative
deriving DecidableEq

def ratingEnumOf (rating : String) : FeedbackRating :=
  if rating = "positive" then .positive else .negative

/-- GenieClient.send_feedback: True on success, False on any error. -/
def sendFeedback (env : ClientEnv) (rating : String) : Except String Bool :=
  pyTryE (do
      let _ := ratingEnumOf rating
      let _ ← env.feedback
      pure true)
    (fun _ => false)

/-- GenieClient.delete_conversation: True on success, False on any error. -/
def deleteConversation (env : ClientEnv) : Except String Bool :=
  pyTryE (do
      let _ ← env.deleteConv
      pure true)
    (fun _ => false)

/-- One chat-message dict of get_conversation_messages (user entries
carry no message id). -/
structure ChatMessage where
  role : String
  content : String
  sql_query : Option String
  message_id : Option String
  timestamp : Option Nat
deriving DecidableEq

/-- Truthiness of message.attachments as checked before extracting the
assistant part. -/
def attachmentsTruthy (m : Message) : Bool :=
  match m.attachments with
  | some (.items l) => !l.isEmpty
  | some .notIterable => true
  | none => false

/-- Per-message dicts of get_conversation_messages: a user entry when
content is truthy, then an assistant entry when attachments are truthy
and extraction yielded an answer or a query. -/
def chatEntriesOf (msg : Message) : List ChatMessage :=
  let userPart :=
    if pyTruthy msg.content then
      [⟨"user", msg.content.getD "", none, none, msg.created_timestamp⟩]
    else []
  let asstPart :=
    if attachmentsTruthy msg then
      let r := extractResult msg
      if r.raw_response != "" || pyTruthy r.sql_query then
        [⟨"assistant",
          (if r.raw_response != "" then r.raw_response else "(Query executed)"),
          r.sql_query, messageIdOf msg, msg.last_updated_timestamp⟩]
      else []
    else []
  userPart ++ asstPart

/-- GenieClient.get_conversation_messages body: build entries, then
sort ascending by timestamp (missing timestamps sort as 0). -/
def getConversationMessagesBody (env : ClientEnv) :
    Except String (List ChatMessage × Option String) := do
  let items ← env.listMsgsOnce
  let msgs := (items.map chatEntriesOf).flatten
  pure (List.mergeSort msgs (fun a b => a.timestamp.getD 0 ≤ b.timestamp.getD 0), none)

/-- GenieClient.get_conversation_messages: a raised error degrades to
the empty list with the error text. -/
def getConversationMessages (env : ClientEnv) :
    Except String (List ChatMessage × Option String) :=
  pyTryE (getConversationMessagesBody env) (fun e => ([], some e))

/-! ## Routing layer (src/app.py /api/ask) and conversation store -/

/-- An operation performed on the ConversationStore ledger. -/
inductive StoreOp where
  | record : String → String → String → StoreOp
  | touch : String → String → StoreOp
deriving DecidableEq

def storeOpCid : StoreOp → String
  | .record _ cid _ => cid
  | .touch _ cid => cid

def storeOpEmail : StoreOp → String
  | .record email _ _ => email
  | .touch email _ => email

/-- Store operations the /api/ask handler performs after receiving a
GenieResult (app.py lines 63-74): only when the result is successful
and carries a truthy conversation id; record with the truncated
question as title for a new conversation, touch for a follow-up. -/
def askRouteStoreOps (conversationIdParam : Option String) (question userEmail : String)
    (result : GenieResult) : List StoreOp :=
  if result.success && pyTruthy result.conversation_id then
    if !pyTruthy conversationIdParam then
      [.record userEmail (result.conversation_id.getD "") ⟨question.data.take 60⟩]
    else
      [.touch userEmail (result.conversation_id.getD "")]
  else []

/-! ## Spec-side definitions for the follow-up-splitting refinement

These two definitions follow the words of spec section 4.7, not the
source; they exist to compare the specified follow-up splitting with
what _extract_result actually does. -/

/-- Modelled from the spec: the closed set of follow-up-question
lead-in phrases. -/
def specFollowUpLeadIns : List String :=
  ["would you like", "would you prefer", "do you want", "shall i", "is there"]

/-- Split a string into lines at newline characters. -/
def splitOnNewline : List Char → List (List Char)
  | [] => [[]]
  | ch :: rest =>
    let r := splitOnNewline rest
    if ch = '\n' then [] :: r
    else
      match r with
      | h :: t2 => (ch :: h) :: t2
      | [] => [[ch]]

/-- Last non-empty (after stripping) line of a string, or "". -/
def lastNonEmptyLine (s : String) : String :=
  (((splitOnNewline s.data).map (fun l => (⟨l⟩ : String))).filter
      (fun l => pyStrip l != "")).getLast?.getD ""

/-- Modelled from the spec: does a line begin (case-insensitively) with
one of the follow-up lead-in phrases? -/
def specIsFollowUpLine (line : String) : Bool :=
  specFollowUpLeadIns.any (fun p => leadsWith p.data (pyLower line).data)

/-! ## Concrete fixtures used by the claim theorems -/

/-- Initial message of a conversation, completed with one commentary
attachment. -/
def msgOriginalCompleted : Message :=
  ⟨"GenieMessage m1", some "COMPLETED", none, some "What is total revenue?",
   some "m1", none, some 100, some 100,
   some (.items [⟨none, some ⟨some "original answer"⟩⟩])⟩

/-- Agent-spawned follow-up message with a newer timestamp, completed
with a refined answer. -/
def msgRefinedCompleted : Message :=
  ⟨"GenieMessage m2", some "COMPLETED", none, none,
   some "m2", none, some 200, some 200,
   some (.items [⟨none, some ⟨some "refined answer"⟩⟩])⟩

/-- World of the spec scenario behind claim C1: the initial message m1
is completed; from the first listing on the conversation holds m1 and
the newer completed m2, and nothing further ever appears (every listing
returns the same two messages, so the conversation is stable). -/
def envFollowUpStabilizes : PollEnv :=
  ⟨fun _ mid => if mid = some "m2" then .ok msgRefinedCompleted else .ok msgOriginalCompleted,
   fun _ => .ok [msgOriginalCompleted, msgRefinedCompleted]⟩

/-- World behind claim C3: the first reconciliation listing (time 3)
shows the completed follow-up m2; the next listing (time 6) fails after
retries with a 503. -/
def envListingFailsAfterFollowUp : PollEnv :=
  ⟨fun _ mid => if mid = some "m2" then .ok msgRefinedCompleted else .ok msgOriginalCompleted,
   fun t => if t ≤ 3 then .ok [msgOriginalCompleted, msgRefinedCompleted]
            else .error "503 Service Temporarily Unavailable"⟩

/-- A cancelled message whose error attribute holds the empty string. -/
def msgCancelledEmptyError : Message :=
  ⟨"GenieMessage mc", some "CANCELLED", some "", none, some "mc", none, none, none, none⟩

/-- World behind the C6 counterexample. -/
def envCancelledEmptyError : PollEnv :=
  ⟨fun _ _ => .ok msgCancelledEmptyError, fun _ => .ok []⟩

/-- Completed message of the spec scenario behind claim C2: a query
attachment with the answer text, then a commentary attachment that is a
follow-up question. -/
def msgWithFollowUpText : Message :=
  ⟨"GenieMessage m", some "COMPLETED", none, none, some "m", none, some 1, some 2,
   some (.items
     [⟨some ⟨some (some "SELECT SUM(revenue) FROM sales")⟩, some ⟨some "Total revenue is $1.2M."⟩⟩,
      ⟨none, some ⟨some "Would you like to see this by region?"⟩⟩])⟩

/-- Message shape of the C2 scenario with variable payloads: one query
attachment carrying the answer, one commentary attachment carrying the
trailing text. -/
def mkAnswerMessage (sqlq answerText followText : String) : Message :=
  ⟨"GenieMessage", some "COMPLETED", none, none, some "m", none, none, none,
   some (.items
     [⟨some ⟨some (some sqlq)⟩, some ⟨some answerText⟩⟩,
      ⟨none, some ⟨some followText⟩⟩])⟩

/-! ## Claim theorems -/

/-- Claim C1 (code bug): in the scenario where the initial message m1
completes, a newer message m2 appears, completes with a refined answer,
and no further messages appear for the chain-stable threshold, the
returned PollResult was claimed to carry the refined message id and
content.  The code does the opposite: the reconciler hits its stability
threshold after adopting m2 and returns None (its stability exit skips
the post-loop supersede block), so the Polling Engine returns the
original answer of m1 with message id m1 — contradicting the claim, the
spec scenario, and the docstring of _wait_for_final_message, which
promises the final result whenever a newer message was found. -/
theorem c1_reconciler_returns_original_after_refined_follow_up :
    waitForFinalMessage defaultConfig envFollowUpStabilizes (some "c1") (some "m1") 0 = none ∧
    pollForResult defaultConfig envFollowUpStabilizes (some "c1") (some "m1") =
      ⟨true, "original answer", none, none, none, some 0, some "c1", some "m1"⟩ := by
  decide

/-- Claim C2 (counterexample): for the spec scenario message whose
commentary attachment text is the follow-up question, the claim says
raw_response excludes that line and a distinct follow-up field carries
it.  In the code the line satisfies the spec lead-in predicate, yet it
stays concatenated into raw_response (and GenieResult has no follow-up
field at all). -/
theorem c2_follow_up_line_left_in_answer_cex :
    (extractResult msgWithFollowUpText).raw_response =
      "Total revenue is $1.2M.\nWould you like to see this by region?" ∧
    strHasSub (extractResult msgWithFollowUpText).raw_response
      "Would you like to see this by region?" = true ∧
    specIsFollowUpLine
      (lastNonEmptyLine (extractResult msgWithFollowUpText).raw_response) = true := by
  decide

/-- Claim C2 (amended): the extractor performs no follow-up splitting.
Even when the trailing commentary text satisfies the spec lead-in
predicate (the hypothesis, deliberately unused by the proof), the
answer is the plain concatenation of query-attachment text and
commentary text, stripped, with the follow-up question still inside. -/
theorem c2_no_follow_up_split_amended (sqlq answerText followText : String)
    (_h : specIsFollowUpLine (lastNonEmptyLine followText) = true) :
    (extractResult (mkAnswerMessage sqlq answerText followText)).raw_response =
      pyStrip (answerText ++ "\n" ++ followText) ∧
    (extractResult (mkAnswerMessage sqlq answerText followText)).sql_query = some sqlq := by
  exact ⟨rfl, rfl⟩

/-- Witness for the amended C2 at the spec scenario payloads. -/
theorem c2_no_follow_up_split_amended_witness :
    specIsFollowUpLine (lastNonEmptyLine "Would you like to see this by region?") = true ∧
    ((extractResult (mkAnswerMessage "SELECT SUM(revenue) FROM sales" "Total revenue is $1.2M."
        "Would you like to see this by region?")).raw_response =
      pyStrip ("Total revenue is $1.2M." ++ "\n" ++ "Would you like to see this by region?") ∧
     (extractResult (mkAnswerMessage "SELECT SUM(revenue) FROM sales" "Total revenue is $1.2M."
        "Would you like to see this by region?")).sql_query =
      some "SELECT SUM(revenue) FROM sales") :=
  ⟨by decide,
   c2_no_follow_up_split_amended "SELECT SUM(revenue) FROM sales" "Total revenue is $1.2M."
     "Would you like to see this by region?" (by decide)⟩

/-- Claim C3 (counterexample): the claim says that whenever a
reconciliation listing fails, the reconciler returns None and the
original stands, in every state including after a follow-up completed.
In the world where the first listing shows the completed follow-up m2
and the second listing fails with a 503, the reconciler instead returns
the follow-up result (message id m2, refined answer). -/
theorem c3_listing_failure_after_follow_up_supersedes_cex :
    waitForFinalMessage defaultConfig envListingFailsAfterFollowUp (some "c1") (some "m1") 0 =
      some ⟨true, "refined answer", none, none, none, some 6, some "c1", some "m2"⟩ := by
  decide

/-- Claim C3 (amended): a failed or empty listing aborts the cycle loop
into the post-loop block; the original message is kept as final (result
None) exactly when no follow-up had been adopted (last known id still
the original); when a follow-up had been adopted, the post-loop block
fetches and returns that follow-up instead. -/
theorem c3_listing_failure_abort_amended (c : ClientConfig) (env : PollEnv)
    (cid orig lk : Option String) (stable fuel t : Nat) (e : String)
    (h1 : t < c.timeout_seconds)
    (h2 : env.listMsgs (t + c.follow_up_settle_seconds) = .error e ∨
          env.listMsgs (t + c.follow_up_settle_seconds) = .ok []) :
    reconcileAux c env cid orig (fuel + 1) t lk stable =
      reconcileFinish c env cid orig lk (t + c.follow_up_settle_seconds) ∧
    ∀ t2 : Nat, reconcileFinish c env cid orig orig t2 = none := by
  constructor
  · simp only [reconcileAux]
    rw [if_neg (by omega)]
    rcases h2 with h | h <;> rw [h]
  · intro t2
    simp [reconcileFinish]

/-- Witness for the amended C3 at the concrete 503 world, in the state
reached after the follow-up m2 was adopted. -/
theorem c3_listing_failure_abort_amended_witness :
    (3 < defaultConfig.timeout_seconds) ∧
    (envListingFailsAfterFollowUp.listMsgs (3 + defaultConfig.follow_up_settle_seconds) =
      .error "503 Service Temporarily Unavailable") ∧
    (reconcileAux defaultConfig envListingFailsAfterFollowUp (some "c1") (some "m1") 19 3
        (some "m2") 0 =
      reconcileFinish defaultConfig envListingFailsAfterFollowUp (some "c1") (some "m1")
        (some "m2") (3 + defaultConfig.follow_up_settle_seconds) ∧
     ∀ t2 : Nat, reconcileFinish defaultConfig envListingFailsAfterFollowUp (some "c1")
        (some "m1") (some "m1") t2 = none) :=
  ⟨by decide, by decide,
   c3_listing_failure_abort_amended defaultConfig envListingFailsAfterFollowUp (some "c1")
     (some "m1") (some "m2") 0 18 3 "503 Service Temporarily Unavailable" (by decide)
     (Or.inl (by decide))⟩

/-- Claim C6 (counterexample): for a message with status CANCELLED
whose reported error is the empty string, the Polling Engine returns
success = false but the error string is empty, refuting the claimed
non-empty error string. -/
theorem c6_empty_error_string_cex :
    pollForResult defaultConfig envCancelledEmptyError (some "c") (some "mc") =
      ⟨false, "", none, none, some "", some 0, some "c", some "mc"⟩ := by
  decide

/-- Claim C6 (amended): for a message classified terminal-failure (and
not also terminal-success), the engine returns success = false with the
error equal to the reported error when present, else Query followed by
the status; the error string is non-empty whenever the reported error
is absent or non-empty; and no follow-up reconciliation is attempted
(the result is independent of the listing oracle). -/
theorem c6_terminal_failure_poll_amended (c : ClientConfig)
    (g : Nat → Option String → Except String Message)
    (l l' : Nat → Except String (List Message))
    (cid mid : Option String) (m : Message)
    (h0 : g 0 mid = .ok m)
    (hs : isTerminalSuccess (getStatusString m) = false)
    (hf : isTerminalFailure (getStatusString m) = true)
    (ht : 0 < c.timeout_seconds) :
    pollForResult c ⟨g, l⟩ cid mid =
      ⟨false, "", none, none, some (m.error.getD ("Query " ++ getStatusString m)),
       some 0, cid, mid⟩ ∧
    pollForResult c ⟨g, l⟩ cid mid = pollForResult c ⟨g, l'⟩ cid mid ∧
    ((m.error = none ∨ ∃ s, m.error = some s ∧ s ≠ "") →
      m.error.getD ("Query " ++ getStatusString m) ≠ "") := by
  have key : ∀ lx : Nat → Except String (List Message),
      pollForResult c ⟨g, lx⟩ cid mid =
        ⟨false, "", none, none, some (m.error.getD ("Query " ++ getStatusString m)),
         some 0, cid, mid⟩ := by
    intro lx
    show pollAux c ⟨g, lx⟩ cid mid (c.timeout_seconds + 1) 0 c.initial_poll_interval = _
    simp only [pollAux]
    rw [if_pos ht, h0]
    simp only [hs, hf, failureResult, Bool.false_eq_true, if_false, if_true]
  refine ⟨key l, (key l).trans (key l').symm, ?_⟩
  rintro (hn | ⟨s, hsome, hne⟩)
  · rw [hn]
    intro habs
    have hdata := congrArg String.data habs
    simp [String.data_append] at hdata
  · rw [hsome]
    exact hne

/-- Witness for the amended C6: a CANCELLED message with a non-empty
reported error. -/
theorem c6_terminal_failure_poll_amended_witness :
    ((fun _ _ => .ok
        (⟨"GenieMessage mf", some "CANCELLED", some "user cancelled the query", none,
          some "mf", none, none, none, none⟩ : Message) :
        Nat → Option String → Except String Message) 0 (some "mf") =
      .ok ⟨"GenieMessage mf", some "CANCELLED", some "user cancelled the query", none,
          some "mf", none, none, none, none⟩) ∧
    isTerminalSuccess (getStatusString
      ⟨"GenieMessage mf", some "CANCELLED", some "user cancelled the query", none,
       some "mf", none, none, none, none⟩) = false ∧
    isTerminalFailure (getStatusString
      ⟨"GenieMessage mf", some "CANCELLED", some "user cancelled the query", none,
       some "mf", none, none, none, none⟩) = true ∧
    (0 < defaultConfig.timeout_seconds) ∧
    (pollForResult defaultConfig
        ⟨fun _ _ => .ok
          ⟨"GenieMessage mf", some "CANCELLED", some "user cancelled the query", none,
           some "mf", none, none, none, none⟩,
         fun _ => .ok []⟩ (some "c") (some "mf") =
      ⟨false, "", none, none, some "user cancelled the query", some 0,
       some "c", some "mf"⟩) := by
  refine ⟨rfl, by decide, by decide, by decide, ?_⟩
  have h := c6_terminal_failure_poll_amended defaultConfig
    (fun _ _ => .ok
      ⟨"GenieMessage mf", some "CANCELLED", some "user cancelled the query", none,
       some "mf", none, none, none, none⟩)
    (fun _ => .ok []) (fun _ => .ok []) (some "c") (some "mf")
    ⟨"GenieMessage mf", some "CANCELLED", some "user cancelled the query", none,
     some "mf", none, none, none, none⟩
    rfl (by decide) (by decide) (by decide)
  exact h.1

/-! ## Retry Executor lemmas and claim C5 -/

lemma retryGo_succ {α : Type} (base : ℚ) (jitter : Nat → ℚ) (f : Nat → Except String α)
    (attempt remaining : Nat) :
    retryGo base jitter f attempt (remaining + 1) =
      (match f attempt with
      | .ok a => ⟨.ok a, 1, []⟩
      | .error e =>
        if isRetryableError e then
          if remaining = 0 then ⟨.error e, 1, []⟩
          else
            let rest := retryGo base jitter f (attempt + 1) remaining
            ⟨rest.result, rest.attemptsMade + 1,
             backoffDelay base jitter attempt :: rest.sleeps⟩
        else ⟨.error e, 1, []⟩) := rfl

lemma retryGo_exhaust {α : Type} (base : ℚ) (jitter : Nat → ℚ) (f : Nat → Except String α)
    (es : Nat → String) :
    ∀ (r attempt : Nat),
      (∀ j, j ≤ r → f (attempt + j) = .error (es (attempt + j)) ∧
        isRetryableError (es (attempt + j)) = true) →
      retryGo base jitter f attempt (r + 1) =
        ⟨.error (es (attempt + r)), r + 1,
         (List.range r).map (fun j => backoffDelay base jitter (attempt + j))⟩ := by
  intro r
  induction r with
  | zero =>
    intro attempt h
    have h0 := h 0 (by omega)
    simp only [Nat.add_zero] at h0
    rw [retryGo_succ, h0.1]
    simp [h0.2]
  | succ r ih =>
    intro attempt h
    have h0 := h 0 (by omega)
    simp only [Nat.add_zero] at h0
    have hrec := ih (attempt + 1) (fun j hj => by
      have hj2 := h (j + 1) (by omega)
      have harith : attempt + (j + 1) = attempt + 1 + j := by omega
      rw [harith] at hj2
      exact hj2)
    rw [retryGo_succ, h0.1]
    simp only [h0.2, if_true, Nat.succ_ne_zero, if_false, hrec]
    have harith2 : attempt + 1 + r = attempt + (r + 1) := by omega
    have harith3 : ∀ j : Nat, attempt + 1 + j = attempt + (j + 1) := by intro j; omega
    rw [List.range_succ_eq_map]
    simp [harith2, harith3, List.map_map, Function.comp, Nat.succ_eq_add_one]

lemma retryGo_nonretryable {α : Type} (base : ℚ) (jitter : Nat → ℚ) (f : Nat → Except String α)
    (es : Nat → String) (eBad : String)
    (hbad : isRetryableError eBad = false) :
    ∀ (i rem attempt : Nat), i < rem →
      (∀ j, j < i → f (attempt + j) = .error (es (attempt + j)) ∧
        isRetryableError (es (attempt + j)) = true) →
      f (attempt + i) = .error eBad →
      retryGo base jitter f attempt rem =
        ⟨.error eBad, i + 1,
         (List.range i).map (fun j => backoffDelay base jitter (attempt + j))⟩ := by
  intro i
  induction i with
  | zero =>
    intro rem attempt hlt h hbadf
    obtain ⟨r, rfl⟩ : ∃ r, rem = r + 1 := ⟨rem - 1, by omega⟩
    simp only [Nat.add_zero] at hbadf
    rw [retryGo_succ, hbadf]
    simp [hbad]
  | succ i ih =>
    intro rem attempt hlt h hbadf
    obtain ⟨r, rfl⟩ : ∃ r, rem = r + 1 := ⟨rem - 1, by omega⟩
    have h0 := h 0 (by omega)
    simp only [Nat.add_zero] at h0
    have hbadf2 : f (attempt + 1 + i) = .error eBad := by
      have harith : attempt + (i + 1) = attempt + 1 + i := by omega
      rw [harith] at hbadf
      exact hbadf
    have hrec := ih r (attempt + 1) (by omega) (fun j hj => by
      have hj2 := h (j + 1) (by omega)
      have harith : attempt + (j + 1) = attempt + 1 + j := by omega
      rw [harith] at hj2
      exact hj2) hbadf2
    have hrne : ¬ (r = 0) := by omega
    rw [retryGo_succ, h0.1]
    simp only [h0.2, if_true, hrne, if_false, hrec]
    have harith3 : ∀ j : Nat, attempt + 1 + j = attempt + (j + 1) := by intro j; omega
    rw [List.range_succ_eq_map]
    simp [harith3, List.map_map, Function.comp, Nat.succ_eq_add_one]

/-- Claim C5: the Retry Executor raises-iff contract.  When every
attempt fails with a retryable error, exactly maxRetries attempts run,
the sleeps are base * 2 ^ attempt + jitter between attempts, and the
last error is re-raised.  When an attempt fails with a non-retryable
error after retryable ones, that error is re-raised at once: attempt
i fails non-retryably means i + 1 attempts total and only the i sleeps
that preceded it (none after the non-retryable failure).  Any error
description containing 503 is classified retryable; the bad-space-id
message is not. -/
theorem c5_retry_executor_contract {α : Type} (maxRetries i : Nat) (base : ℚ)
    (jitter : Nat → ℚ) (f : Nat → Except String α) (es : Nat → String) (eBad : String)
    (h1 : 1 ≤ maxRetries) :
    ((∀ n, n < maxRetries → f n = .error (es n) ∧ isRetryableError (es n) = true) →
      retryWithBackoff maxRetries base jitter f =
        ⟨.error (es (maxRetries - 1)), maxRetries,
         (List.range (maxRetries - 1)).map (backoffDelay base jitter)⟩) ∧
    ((i < maxRetries ∧ (∀ j, j < i → f j = .error (es j) ∧ isRetryableError (es j) = true) ∧
        f i = .error eBad ∧ isRetryableError eBad = false) →
      retryWithBackoff maxRetries base jitter f =
        ⟨.error eBad, i + 1, (List.range i).map (backoffDelay base jitter)⟩) ∧
    (∀ s, strHasSub (pyLower s) "503" = true → isRetryableError s = true) ∧
    (isRetryableError "invalid argument: bad space id" = false) := by
  refine ⟨?_, ?_, ?_, by decide⟩
  · intro h
    obtain ⟨r, rfl⟩ : ∃ r, maxRetries = r + 1 := ⟨maxRetries - 1, by omega⟩
    have := retryGo_exhaust base jitter f es r 0
      (fun j hj => by simpa using h j (by omega))
    simpa [retryWithBackoff] using this
  · rintro ⟨hlt, h, hbadf, hbad⟩
    have := retryGo_nonretryable base jitter f es eBad hbad i maxRetries 0 hlt
      (fun j hj => by simpa using h j hj) (by simpa using hbadf)
    simpa [retryWithBackoff] using this
  · intro s hs
    simp [isRetryableError, RETRYABLE_ERRORS]
    tauto

def f503 : Nat → Except String Unit := fun _ => .error "503 service temporarily unavailable"

def fBadArg : Nat → Except String Unit := fun _ => .error "invalid argument: bad space id"

def halfJitter : Nat → ℚ := fun _ => 1 / 2

theorem c5_retry_executor_contract_witness :
    (1 ≤ 3) ∧
    (retryWithBackoff 3 1 halfJitter f503 =
      ⟨.error "503 service temporarily unavailable", 3,
       (List.range 2).map (backoffDelay 1 halfJitter)⟩) ∧
    (retryWithBackoff 3 1 halfJitter fBadArg =
      ⟨.error "invalid argument: bad space id", 1,
       (List.range 0).map (backoffDelay 1 halfJitter)⟩) := by
  refine ⟨by omega, ?_, ?_⟩
  · have h := (c5_retry_executor_contract 3 0 1 halfJitter f503
      (fun _ => "503 service temporarily unavailable") "x" (by omega)).1
    exact h (fun n _ => ⟨rfl, by decide⟩)
  · have h := (c5_retry_executor_contract 3 0 1 halfJitter fBadArg
      (fun _ => "503") "invalid argument: bad space id" (by omega)).2.1
    exact h ⟨by omega, fun j hj => absurd hj (by omega), rfl, by decide⟩

/-! ## Terminal-state, timeout, and boundary claims -/

def msgQueued : Message :=
  ⟨"GenieMessage q", some "QUEUED", none, none, some "q", none, some 1, some 1, none⟩

def envPendingForever : PollEnv :=
  ⟨fun _ _ => .ok msgQueued, fun _ => .ok []⟩

/-- Claim C7: the Terminal State Evaluator is substring-tolerant on
the uppercased status: containing COMPLETED implies terminal-success;
containing FAILED, CANCELLED, CANCELED or ABORTED implies
terminal-failure; classification factors through the uppercasing (so it
is insensitive to the case of the raw status); a status with neither
keyword classifies as non-terminal; and on such a message the Polling
Engine performs one sleep and continues with the advanced interval
rather than returning an error. -/
theorem c7_terminal_state_evaluator (raw alt : String) (c : ClientConfig) (env : PollEnv)
    (cid mid : Option String) (m : Message) (fuel t itv : Nat)
    (hns : isTerminalSuccess (getStatusString m) = false)
    (hnf : isTerminalFailure (getStatusString m) = false)
    (ht : t < c.timeout_seconds)
    (hm : env.getMsg t mid = .ok m) :
    (strHasSub (pyUpper raw) "COMPLETED" = true → isTerminalSuccess (pyUpper raw) = true) ∧
    ((strHasSub (pyUpper raw) "FAILED" || strHasSub (pyUpper raw) "CANCELLED" ||
      strHasSub (pyUpper raw) "CANCELED" || strHasSub (pyUpper raw) "ABORTED") = true →
      isTerminalFailure (pyUpper raw) = true) ∧
    (pyUpper raw = pyUpper alt →
      classifyStatus (pyUpper raw) = classifyStatus (pyUpper alt)) ∧
    (isTerminalSuccess (pyUpper raw) = false → isTerminalFailure (pyUpper raw) = false →
      classifyStatus (pyUpper raw) = .pending) ∧
    (pollAux c env cid mid (fuel + 1) t itv =
      pollAux c env cid mid fuel (t + itv) (getNextPollInterval c itv)) := by
  refine ⟨?_, ?_, ?_, ?_, ?_⟩
  · intro h
    simp [isTerminalSuccess, TERMINAL_SUCCESS_STATES, h]
  · intro h
    simp only [Bool.or_eq_true] at h
    simp [isTerminalFailure, TERMINAL_FAILURE_STATES]
    tauto
  · intro h
    rw [h]
  · intro a b
    simp [classifyStatus, a, b]
  · simp only [pollAux]
    rw [if_pos ht, hm]
    simp only [hns, hnf, Bool.false_eq_true, if_false]

theorem c7_terminal_state_evaluator_witness :
    isTerminalSuccess (getStatusString msgQueued) = false ∧
    isTerminalFailure (getStatusString msgQueued) = false ∧
    (0 < defaultConfig.timeout_seconds) ∧
    envPendingForever.getMsg 0 (some "q") = .ok msgQueued ∧
    ((strHasSub (pyUpper "Queued-V2") "COMPLETED" = true →
        isTerminalSuccess (pyUpper "Queued-V2") = true) ∧
     ((strHasSub (pyUpper "Queued-V2") "FAILED" || strHasSub (pyUpper "Queued-V2") "CANCELLED" ||
       strHasSub (pyUpper "Queued-V2") "CANCELED" || strHasSub (pyUpper "Queued-V2") "ABORTED") = true →
        isTerminalFailure (pyUpper "Queued-V2") = true) ∧
     (pyUpper "Queued-V2" = pyUpper "queued-v2" →
        classifyStatus (pyUpper "Queued-V2") = classifyStatus (pyUpper "queued-v2")) ∧
     (isTerminalSuccess (pyUpper "Queued-V2") = false →
        isTerminalFailure (pyUpper "Queued-V2") = false →
        classifyStatus (pyUpper "Queued-V2") = .pending) ∧
     (pollAux defaultConfig envPendingForever (some "c") (some "q") (600 + 1) 0 1 =
        pollAux defaultConfig envPendingForever (some "c") (some "q") 600 (0 + 1)
          (getNextPollInterval defaultConfig 1))) :=
  ⟨by decide, by decide, by decide, rfl,
   c7_terminal_state_evaluator "Queued-V2" "queued-v2" defaultConfig envPendingForever
     (some "c") (some "q") msgQueued 600 0 1 (by decide) (by decide) (by decide) rfl⟩

lemma pollAux_all_nonterminal (c : ClientConfig)
    (g : Nat → Option String → Except String Message)
    (l : Nat → Except String (List Message)) (cid mid : Option String)
    (henv : ∀ t m, g t mid = .ok m →
      isTerminalSuccess (getStatusString m) = false ∧
      isTerminalFailure (getStatusString m) = false) :
    ∀ fuel t itv, c.timeout_seconds ≤ t + fuel → 1 ≤ itv → itv ≤ c.max_poll_interval →
      t < c.timeout_seconds + c.max_poll_interval →
      ∃ e, pollAux c ⟨g, l⟩ cid mid fuel t itv = timeoutResult e cid mid ∧
        c.timeout_seconds ≤ e ∧ e < c.timeout_seconds + c.max_poll_interval := by
  intro fuel
  induction fuel with
  | zero =>
    intro t itv hfuel hitv hmax hcap
    exact ⟨t, by simp [pollAux], by omega, hcap⟩
  | succ fuel ih =>
    intro t itv hfuel hitv hmax hcap
    by_cases hlt : t < c.timeout_seconds
    · have hstep : ∃ e, pollAux c ⟨g, l⟩ cid mid fuel (t + itv)
          (getNextPollInterval c itv) = timeoutResult e cid mid ∧
          c.timeout_seconds ≤ e ∧ e < c.timeout_seconds + c.max_poll_interval := by
        apply ih
        · omega
        · simp only [getNextPollInterval]
          omega
        · simp only [getNextPollInterval]
          omega
        · omega
      obtain ⟨e, heq, hle, hlt2⟩ := hstep
      refine ⟨e, ?_, hle, hlt2⟩
      simp only [pollAux]
      rw [if_pos hlt]
      cases hg : g t mid with
      | error err => exact heq
      | ok m =>
        obtain ⟨hs, hf⟩ := henv t m hg
        simp only [hs, hf, Bool.false_eq_true, if_false]
        exact heq
    · refine ⟨t, ?_, by omega, hcap⟩
      simp only [pollAux]
      rw [if_neg hlt]

lemma timedOutDecomp (s : String) :
    "Query timed out after " ++ s ++ " seconds." =
      "Query " ++ ("timed out" ++ (" after " ++ s ++ " seconds.")) := by
  have h1 : ("Query timed out after " : String) = "Query " ++ "timed out" ++ " after " := by
    decide
  rw [h1]
  simp only [String.append_assoc]

/-- Claim C8: under the default 600-second budget, if no fetched
message ever classifies terminal, poll returns a failed PollResult
whose error message contains timed out, with elapsed_seconds equal to
the logical elapsed time, between 600 and 660 (the budget plus at most
one maximal 60s poll interval). -/
theorem c8_poll_timeout (g : Nat → Option String → Except String Message)
    (l : Nat → Except String (List Message)) (cid mid : Option String)
    (henv : ∀ t m, g t mid = .ok m →
      isTerminalSuccess (getStatusString m) = false ∧
      isTerminalFailure (getStatusString m) = false) :
    ∃ e, pollForResult defaultConfig ⟨g, l⟩ cid mid =
        ⟨false, "", none, none,
         some ("Query timed out after " ++ toString e ++ " seconds."), some e, cid, mid⟩ ∧
      600 ≤ e ∧ e < 660 ∧
      ∃ a b, ("Query timed out after " ++ toString e ++ " seconds.") =
        a ++ ("timed out" ++ b) := by
  obtain ⟨e, heq, hle, hlt⟩ := pollAux_all_nonterminal defaultConfig g l cid mid henv
    (defaultConfig.timeout_seconds + 1) 0 defaultConfig.initial_poll_interval
    (by omega) (by decide) (by decide) (by decide)
  exact ⟨e, heq, hle, hlt,
    "Query ", " after " ++ toString e ++ " seconds.", timedOutDecomp (toString e)⟩

theorem c8_poll_timeout_witness :
    ∃ e, pollForResult defaultConfig envPendingForever (some "c") (some "q") =
        ⟨false, "", none, none,
         some ("Query timed out after " ++ toString e ++ " seconds."), some e,
         some "c", some "q"⟩ ∧
      600 ≤ e ∧ e < 660 ∧
      ∃ a b, ("Query timed out after " ++ toString e ++ " seconds.") =
        a ++ ("timed out" ++ b) :=
  c8_poll_timeout (fun _ _ => .ok msgQueued) (fun _ => .ok []) (some "c") (some "q")
    (by
      intro t m h
      injection h with h2
      subst h2
      decide)

/-! ## Boundary, query-result and routing claims -/

lemma pyTryE_ok {α : Type} (body : Except String α) (handler : String → α) :
    ∃ a, pyTryE body handler = .ok a := by
  cases body with
  | ok a => exact ⟨a, rfl⟩
  | error e => exact ⟨handler e, rfl⟩

/-- Claim C4: no exception crosses the public boundary.  Every public
operation evaluates to an ok structured value for arbitrary collaborator
oracles; extraction on a message with an unreadable attachment value
degrades to str(message) plus a recorded partial-extraction error
without raising; and a failing start_conversation surfaces as a failed
GenieResult whose error carries the raised text. -/
theorem c4_no_exception_crosses_boundary (c : ClientConfig) (env2 env : ClientEnv)
    (cid rating : String) (m : Message) (eExtract eStart : String)
    (hm : extractCore m = .error eExtract)
    (hs : env.startConv = .error eStart) :
    (∃ r, ask c env2 = .ok r) ∧
    (∃ r, continueConversation c env2 cid = .ok r) ∧
    (∃ l, listConversations env2 = .ok l) ∧
    (∃ d, getQueryResult env2 = .ok d) ∧
    (∃ b, sendFeedback env2 rating = .ok b) ∧
    (∃ b, deleteConversation env2 = .ok b) ∧
    (∃ p, getConversationMessages env2 = .ok p) ∧
    extractResult m = ⟨true, m.pyRepr, none, none,
      some ("Partial extraction: " ++ eExtract), none, none, none⟩ ∧
    ask c env = .ok ⟨false, "", none, none, some eStart, some 0, none, none⟩ := by
  refine ⟨pyTryE_ok _ _, pyTryE_ok _ _, pyTryE_ok _ _, pyTryE_ok _ _, pyTryE_ok _ _,
    pyTryE_ok _ _, pyTryE_ok _ _, ?_, ?_⟩
  · simp [extractResult, hm]
  · simp [ask, askBody, hs, pyTryE, Bind.bind, Except.bind]

def envAllFail : ClientEnv :=
  ⟨.error "boom", fun _ => .error "boom",
   ⟨fun _ _ => .error "boom", fun _ => .error "boom"⟩,
   .error "boom", .error "boom", fun _ => .error "boom",
   .error "boom", .error "boom", .error "boom"⟩

def msgJunkAttachments : Message :=
  ⟨"<GenieMessage object>", some "COMPLETED", none, none, some "mj", none, none, none,
   some .notIterable⟩

theorem c4_no_exception_crosses_boundary_witness :
    extractCore msgJunkAttachments = .error "TypeError: object is not iterable" ∧
    envAllFail.startConv = .error "boom" ∧
    ((∃ r, ask defaultConfig envAllFail = .ok r) ∧
     (∃ r, continueConversation defaultConfig envAllFail "c" = .ok r) ∧
     (∃ l, listConversations envAllFail = .ok l) ∧
     (∃ d, getQueryResult envAllFail = .ok d) ∧
     (∃ b, sendFeedback envAllFail "positive" = .ok b) ∧
     (∃ b, deleteConversation envAllFail = .ok b) ∧
     (∃ p, getConversationMessages envAllFail = .ok p) ∧
     extractResult msgJunkAttachments =
       ⟨true, "<GenieMessage object>", none, none,
        some ("Partial extraction: " ++ "TypeError: object is not iterable"),
        none, none, none⟩ ∧
     ask defaultConfig envAllFail =
       .ok ⟨false, "", none, none, some "boom", some 0, none, none⟩) :=
  ⟨rfl, rfl,
   c4_no_exception_crosses_boundary defaultConfig envAllFail envAllFail "c" "positive"
     msgJunkAttachments "TypeError: object is not iterable" "boom" rfl rfl⟩

/-- Claim C9: get_query_result always evaluates to an ok dict (the
QueryResultDict type is exactly the two contract shapes), and when the
statement response has a manifest but no inline data_array and no
statement id fallback, the result is the empty result set with the
manifest columns, no rows, and total_rows 0 — not an error. -/
theorem c9_get_query_result_shapes (env2 env : ClientEnv)
    (rawCols : List ResultColumn) (trc : Option Nat) (resOpt : Option ResultData)
    (hq : env.queryResult = .ok ⟨some ⟨some ⟨some ⟨some rawCols⟩, trc⟩, resOpt, none⟩⟩)
    (hr : resOpt = none ∨ resOpt = some ⟨none⟩) :
    (∃ d, getQueryResult env2 = .ok d) ∧
    getQueryResult env = .ok (.ok_shape (columnsOf rawCols) [] (some 0)) := by
  refine ⟨pyTryE_ok _ _, ?_⟩
  rcases hr with h | h <;> subst h <;>
    simp [getQueryResult, getQueryResultBody, hq, pyTryE, pyTruthy,
      Bind.bind, Except.bind, Pure.pure, Except.pure]

def envC9 : ClientEnv :=
  ⟨.error "boom", fun _ => .error "boom",
   ⟨fun _ _ => .error "boom", fun _ => .error "boom"⟩,
   .error "boom",
   .ok ⟨some ⟨some ⟨some ⟨some [⟨"region", some "STRING"⟩, ⟨"revenue", some "DOUBLE"⟩]⟩,
     some 0⟩, some ⟨none⟩, none⟩⟩,
   fun _ => .error "boom", .error "boom", .error "boom", .error "boom"⟩

theorem c9_get_query_result_shapes_witness :
    envC9.queryResult =
      .ok ⟨some ⟨some ⟨some ⟨some [⟨"region", some "STRING"⟩, ⟨"revenue", some "DOUBLE"⟩]⟩,
        some 0⟩, some ⟨none⟩, none⟩⟩ ∧
    ((some (⟨none⟩ : ResultData) : Option ResultData) = none ∨
      (some (⟨none⟩ : ResultData) : Option ResultData) = some ⟨none⟩) ∧
    ((∃ d, getQueryResult envC9 = .ok d) ∧
     getQueryResult envC9 =
       .ok (.ok_shape (columnsOf [⟨"region", some "STRING"⟩, ⟨"revenue", some "DOUBLE"⟩])
         [] (some 0))) :=
  ⟨rfl, Or.inr rfl,
   c9_get_query_result_shapes envC9 envC9
     [⟨"region", some "STRING"⟩, ⟨"revenue", some "DOUBLE"⟩] (some 0) (some ⟨none⟩)
     rfl (Or.inr rfl)⟩

/-- Claim C10: the /api/ask routing layer records or touches the
ownership store only for a successful PollResult with a truthy
conversation id, and the conversation id every store operation carries
is exactly that successful result's conversation id (so the store never
references a conversation id that was not returned as successful). -/
theorem c10_store_ops_only_on_success (param : Option String)
    (question userEmail : String) (r : GenieResult) (op : StoreOp)
    (hop : op ∈ askRouteStoreOps param question userEmail r) :
    r.success = true ∧ ∃ cidStr, r.conversation_id = some cidStr ∧ cidStr ≠ "" ∧
      storeOpCid op = cidStr ∧ storeOpEmail op = userEmail := by
  unfold askRouteStoreOps at hop
  by_cases h1 : (r.success && pyTruthy r.conversation_id) = true
  · rw [if_pos h1] at hop
    simp only [Bool.and_eq_true] at h1
    obtain ⟨hsucc, htru⟩ := h1
    refine ⟨hsucc, ?_⟩
    cases hcid : r.conversation_id with
    | none => rw [hcid] at htru; simp [pyTruthy] at htru
    | some s =>
      have hne : s ≠ "" := by
        rw [hcid] at htru
        simp [pyTruthy] at htru
        exact htru
      refine ⟨s, rfl, hne, ?_, ?_⟩ <;>
        · by_cases h2 : (!pyTruthy param) = true <;>
            simp [h2, hcid] at hop <;> simp [hop, storeOpCid, storeOpEmail]
  · rw [if_neg h1] at hop
    simp at hop

theorem c10_store_ops_only_on_success_witness :
    (StoreOp.record "user@example.com" "conv9" "What is total revenue?" ∈
      askRouteStoreOps none "What is total revenue?" "user@example.com"
        ⟨true, "answer", none, none, none, some 1, some "conv9", some "m9"⟩) ∧
    ((⟨true, "answer", none, none, none, some 1, some "conv9", some "m9"⟩ :
        GenieResult).success = true ∧
     ∃ cidStr, (⟨true, "answer", none, none, none, some 1, some "conv9", some "m9"⟩ :
        GenieResult).conversation_id = some cidStr ∧ cidStr ≠ "" ∧
       storeOpCid (StoreOp.record "user@example.com" "conv9" "What is total revenue?") =
         cidStr ∧
       storeOpEmail (StoreOp.record "user@example.com" "conv9" "What is total revenue?") =
         "user@example.com") :=
  ⟨by decide,
   c10_store_ops_only_on_success none "What is total revenue?" "user@example.com"
     ⟨true, "answer", none, none, none, some 1, some "conv9", some "m9"⟩
     (StoreOp.record "user@example.com" "conv9" "What is total revenue?") (by decide)⟩
